import Mathlib

/-
Verification development for the EUCS spreadsheet-to-OSCAL converter
(src/create_eucs_catalogs_profiles.py).  The row-to-tree builder, the
tier-specific identifier rewriting, the sheet selection and the profile
writer are shallowly embedded below; spreadsheet cells are `Option String`
(`none` models a blank/NaN cell), Python exceptions are modelled with
`Except String`.
-/

namespace EUCS

/-- One synthesized Requirement part (`create_requirement` in the source):
`severity` is the `class_`/severity level string, `identifier` the value of
the `alt-identifier` property, `partId` the `id` field and `prose` the prose. -/
structure ReqPart where
  severity : String
  identifier : String
  partId : String
  prose : String
deriving Repr, DecidableEq

/-- One Control together with its Objective part and its Requirements
headline part (`create_control`, `create_objective_headline`,
`create_requirement_headline` in the source).  The requirement parts that
the source appends to `requirement_headline.parts` live in `reqParts`. -/
structure Control where
  ctrlId : String
  title : String
  labelVal : String
  objId : String
  objProse : Option String
  reqHeadId : String
  reqParts : List ReqPart
deriving Repr, DecidableEq

/-- One Category / OSCAL group (`create_category` in the source). -/
structure Group where
  groupId : String
  title : Option String
  labelVal : String
  controls : List Control
deriving Repr, DecidableEq

/-- One spreadsheet row, in the column order of the source
(EUCS Category, EUCS Control, EUCS Requirement, Title, Description,
Basic, Substantial, High).  `none` is a blank cell (`pd.isna`). -/
structure Row where
  category : Option String
  control : Option String
  requirement : Option String
  title : Option String
  description : Option String
  basic : Option String
  substantial : Option String
  high : Option String
deriving Repr, DecidableEq

/-- The `current_loop_control_title` / `requirement_headline` aliases of the
source, both assigned together when a control is created: the position
(group index `gi`, control index `ci`) of the control whose requirements
headline receives subsequent requirement parts, plus the control's title. -/
structure CurControl where
  gi : Nat
  ci : Nat
  title : String
deriving Repr, DecidableEq

/-- The mutable state of the source's row loop: the catalog's groups, the
three per-tier identifier lists (`basic_profile`, `substantial_profile`,
`high_profile`), the look-back cells `current_loop_category` and
`current_loop_control` (`none` models both the initial Python `None` and a
NaN cell, which compare unequal to every string), and the current control. -/
structure BuildState where
  groups : List Group
  basicProfile : List String
  substantialProfile : List String
  highProfile : List String
  lastCat : Option String
  lastCtrl : Option String
  curControl : Option CurControl
deriving Repr, DecidableEq

/-- Helper for `splitWs`: accumulate the current token (in reverse) while
scanning the character list, emitting a token at each whitespace run. -/
def splitWsChars (acc : List Char) : List Char → List String
  | [] => if acc.isEmpty then [] else [String.mk acc.reverse]
  | c :: cs =>
    if c.isWhitespace then
      (if acc.isEmpty then [] else [String.mk acc.reverse]) ++ splitWsChars [] cs
    else splitWsChars (c :: acc) cs

/-- Python `str.split()` with no arguments: split on whitespace runs,
dropping empty pieces. -/
def splitWs (s : String) : List String := splitWsChars [] s.toList

/-- Python `s[-1]` as an `Option`: `none` when the string is empty (where
Python raises IndexError, handled at each use site). -/
def lastChar? (s : String) : Option Char := s.toList.getLast?

/-- Python `s[-2:]`: the final two characters (the whole string when it is
shorter). -/
def lastTwo (s : String) : String := ⟨s.toList.drop (s.toList.length - 2)⟩

/-- Python `s[:-1]`: everything but the final character. -/
def dropLast1 (s : String) : String := ⟨s.toList.dropLast⟩

/-- `create_category` from the source: group id `eucs-<category_id>`, label
property `<category_id>.`, empty control list. -/
def create_category (category_id : String) (category_title : Option String) : Group :=
  { groupId := "eucs-" ++ category_id,
    title := category_title,
    labelVal := category_id ++ ".",
    controls := [] }

/-- `create_control` from the source, fused with the two headline parts the
source attaches immediately afterwards (`create_objective_headline`,
`create_requirement_headline`).  Errors mirror Python: `control_id[-1]` on
an empty id raises IndexError, `.split()` on a NaN title raises
AttributeError, and `split()[0]` of a whitespace-only title raises
IndexError. -/
def create_control (category_id control_id : String) (control_title : Option String)
    (control_objective : Option String) : Except String Control :=
  match lastChar? control_id with
  | none => .error "IndexError"
  | some lc =>
    match control_title with
    | none => .error "AttributeError"
    | some t =>
      match splitWs t with
      | [] => .error "IndexError"
      | tok :: _ =>
        .ok { ctrlId := "eucs-" ++ category_id ++ "." ++ tok,
              title := t,
              labelVal := String.mk [lc] ++ ".",
              objId := "eucs-" ++ category_id ++ "." ++ tok ++ "_obj",
              objProse := control_objective,
              reqHeadId := "eucs-" ++ category_id ++ "." ++ tok ++ "_req",
              reqParts := [] }

/-- `create_requirement` from the source.  The prose concatenation
`requirement_id + ' - ' + requirement_description` raises TypeError in
Python when the description cell is NaN (a float), so a `none` description
is an error, and `control_title.split()[0]` raises IndexError on a
whitespace-only title. -/
def create_requirement (severity_level requirement_id category_id control_title : String)
    (requirement_description : Option String) : Except String ReqPart :=
  match splitWs control_title with
  | [] => .error "IndexError"
  | tok :: _ =>
    match requirement_description with
    | none => .error "TypeError"
    | some d =>
      .ok { severity := severity_level,
            identifier := requirement_id,
            partId := "eucs-" ++ category_id ++ "." ++ tok ++ "_req" ++ "." ++ lastTwo requirement_id,
            prose := requirement_id ++ " - " ++ d }

/-- Replace the element at index `i` (no-op when out of range); used to model
in-place mutation through the source's Python object aliases. -/
def updAt {α : Type} : List α → Nat → (α → α) → List α
  | [], _, _ => []
  | a :: as, 0, f => f a :: as
  | a :: as, Nat.succ n, f => a :: updAt as n f

/-- Positional lookup (Python list indexing as an `Option`). -/
def nth? {α : Type} : List α → Nat → Option α
  | [], _ => none
  | a :: _, 0 => some a
  | _ :: as, Nat.succ n => nth? as n

/-- `requirement_headline.parts.append(requirement)`: append a requirement
part to the control at position `(gi, ci)` of the catalog's groups. -/
def appendReqAt (groups : List Group) (gi ci : Nat) (p : ReqPart) : List Group :=
  updAt groups gi (fun g =>
    { g with controls := updAt g.controls ci (fun c =>
        { c with reqParts := c.reqParts ++ [p] }) })

/-- Lines 354-356 of the source, executed for every row: remember this row's
category and control cells for the next iteration. -/
def updateLookback (row : Row) (s : BuildState) : BuildState :=
  { s with lastCat := row.category, lastCtrl := row.control }

/-- The source's basic-requirement block (lines 288-300): create the part
with the raw identifier, append the raw identifier to `basic_profile`, and
append the part to the current requirements headline.
`current_loop_control_title` unbound raises UnboundLocalError. -/
def addBasic (req cat : String) (desc : Option String) (s : BuildState) :
    Except String BuildState :=
  match s.curControl with
  | none => .error "UnboundLocalError"
  | some cc =>
    match create_requirement "basic" req cat cc.title desc with
    | .error e => .error e
    | .ok p =>
      .ok { s with basicProfile := s.basicProfile ++ [req],
                   groups := appendReqAt s.groups cc.gi cc.ci p }

/-- The source's substantial-requirement block (lines 303-326): when the raw
identifier's final character is `'B'`, the key written to the part and to
`substantial_profile` is the identifier with its final character replaced by
`'S'`; otherwise the raw identifier is used unchanged.  Indexing `[-1]` of
an empty identifier raises IndexError. -/
def addSubstantial (req cat : String) (desc : Option String) (s : BuildState) :
    Except String BuildState :=
  match lastChar? req with
  | none => .error "IndexError"
  | some lc =>
    if lc = 'B' then
      match s.curControl with
      | none => .error "UnboundLocalError"
      | some cc =>
        match create_requirement "substantial" (dropLast1 req ++ "S") cat cc.title desc with
        | .error e => .error e
        | .ok p =>
          .ok { s with substantialProfile := s.substantialProfile ++ [dropLast1 req ++ "S"],
                       groups := appendReqAt s.groups cc.gi cc.ci p }
    else
      match s.curControl with
      | none => .error "UnboundLocalError"
      | some cc =>
        match create_requirement "substantial" req cat cc.title desc with
        | .error e => .error e
        | .ok p =>
          .ok { s with substantialProfile := s.substantialProfile ++ [req],
                       groups := appendReqAt s.groups cc.gi cc.ci p }

/-- The source's high-requirement block (lines 329-352): when the raw
identifier's final character is `'B'` or `'S'`, it is replaced by `'H'`;
otherwise the raw identifier is used unchanged. -/
def addHigh (req cat : String) (desc : Option String) (s : BuildState) :
    Except String BuildState :=
  match lastChar? req with
  | none => .error "IndexError"
  | some lc =>
    if lc = 'B' ∨ lc = 'S' then
      match s.curControl with
      | none => .error "UnboundLocalError"
      | some cc =>
        match create_requirement "high" (dropLast1 req ++ "H") cat cc.title desc with
        | .error e => .error e
        | .ok p =>
          .ok { s with highProfile := s.highProfile ++ [dropLast1 req ++ "H"],
                       groups := appendReqAt s.groups cc.gi cc.ci p }
    else
      match s.curControl with
      | none => .error "UnboundLocalError"
      | some cc =>
        match create_requirement "high" req cat cc.title desc with
        | .error e => .error e
        | .ok p =>
          .ok { s with highProfile := s.highProfile ++ [req],
                       groups := appendReqAt s.groups cc.gi cc.ci p }

/-- The body of the row loop of `run` (lines 242-356 of the source).  The
three structural patterns are tested in source order; a row matching none of
them only updates the look-back cells.  In the control branch the source
appends to `category`, the most recently created group, i.e. the last
element of `catalog.groups`; `category` unbound (no group yet) raises
UnboundLocalError.  In the category branch creation happens unless the
category cell equals the previous row's category cell. -/
def step (s : BuildState) (row : Row) : Except String BuildState :=
  match row.control, row.requirement, row.category with
  | none, none, some cat =>
    if s.lastCat = some cat then
      .ok (updateLookback row s)
    else
      .ok (updateLookback row { s with groups := s.groups ++ [create_category cat row.title] })
  | some ctrl, none, some cat =>
    if s.lastCtrl = some ctrl then
      .ok (updateLookback row s)
    else
      match create_control cat ctrl row.title row.description with
      | .error e => .error e
      | .ok c =>
        match nth? s.groups (s.groups.length - 1) with
        | none => .error "UnboundLocalError"
        | some g =>
          .ok (updateLookback row
            { s with
              groups := updAt s.groups (s.groups.length - 1)
                (fun g0 => { g0 with controls := g0.controls ++ [c] }),
              curControl := some { gi := s.groups.length - 1, ci := g.controls.length,
                                   title := c.title } })
  | some _ctrl, some req, some cat =>
    match (if row.basic.isSome then addBasic req cat row.description s else .ok s) with
    | .error e => .error e
    | .ok s1 =>
      match (if row.substantial.isSome then addSubstantial req cat row.description s1 else .ok s1) with
      | .error e => .error e
      | .ok s2 =>
        match (if row.high.isSome then addHigh req cat row.description s2 else .ok s2) with
        | .error e => .error e
        | .ok s3 => .ok (updateLookback row s3)
  | _, _, _ => .ok (updateLookback row s)

/-- Fold `step` over the remaining rows, aborting at the first error, as the
source's `for _, row in df.iterrows()` loop does when an exception escapes. -/
def runSteps : BuildState → List Row → Except String BuildState
  | s, [] => .ok s
  | s, row :: rows =>
    match step s row with
    | .error e => .error e
    | .ok s' => runSteps s' rows

/-- The loop state just before the first row: empty catalog, empty tier
lists, no look-back values, no current control. -/
def initState : BuildState :=
  { groups := [], basicProfile := [], substantialProfile := [], highProfile := [],
    lastCat := none, lastCtrl := none, curControl := none }

/-- The whole tree-building pass of `run` over an ordered row sequence. -/
def buildRows (rows : List Row) : Except String BuildState := runSteps initState rows

/-- The state a successful build ends in (`initState` on failure); used to
form closed statements about concrete runs. -/
def builtState (rows : List Row) : BuildState :=
  match buildRows rows with
  | .ok s => s
  | .error _ => initState

/-- The in-memory `ospro.Profile` object of the source (lines 363-367):
uuid, the import of the catalog by file name, and the selector that
`write_profile` mutates (`none` before the first call). -/
structure Profile where
  uuid : String
  importHref : String
  include_controls : Option (List String)
deriving Repr, DecidableEq

/-- The serialized profile document produced by one `oscal_write` call. -/
structure ProfileDoc where
  uuid : String
  importHref : String
  include_controls : List String
deriving Repr, DecidableEq

/-- `write_profile` from the source (lines 177-186): overwrite the shared
profile object's `imports[0].include_controls` with the given list, then
serialize.  The returned pair is (profile object after the call, document
written to disk). -/
def write_profile (profile : Profile) (control_list : List String) : Profile × ProfileDoc :=
  let profile2 := { profile with include_controls := some control_list }
  (profile2, { uuid := profile2.uuid, importHref := profile2.importHref,
               include_controls := control_list })

/-- The serialized catalog document. -/
structure CatalogDoc where
  uuid : String
  groups : List Group
deriving Repr, DecidableEq

/-- The four files a successful run writes, keyed by file name. -/
structure RunOutput where
  catalogFile : String × CatalogDoc
  basicFile : String × ProfileDoc
  substantialFile : String × ProfileDoc
  highFile : String × ProfileDoc
deriving Repr, DecidableEq

/-- The hard-coded uuid the source gives both the catalog and the profile. -/
def catalogUuid : String := "74c8ba1e-5cd4-4ad1-bbfd-d888e2f6c724"

/-- Lines 358-379 of the source: build the tree, then write the catalog and
the three profiles in order, threading the single shared `Profile` object
through the three `write_profile` calls.  Any builder exception aborts the
run before the catalog is written. -/
def runRows (version : String) (rows : List Row) : Except String RunOutput :=
  match buildRows rows with
  | .error e => .error e
  | .ok st =>
    let catalogName := "EUCS_controls_version_" ++ version ++ "_catalog.json"
    let profile0 : Profile :=
      { uuid := catalogUuid, importHref := catalogName, include_controls := none }
    let r1 := write_profile profile0 st.basicProfile
    let r2 := write_profile r1.1 st.substantialProfile
    let r3 := write_profile r2.1 st.highProfile
    .ok { catalogFile := (catalogName, { uuid := catalogUuid, groups := st.groups }),
          basicFile := ("EUCS_version_" ++ version ++ "_profile_Basic.json", r1.2),
          substantialFile := ("EUCS_version_" ++ version ++ "_profile_Substantial.json", r2.2),
          highFile := ("EUCS_version_" ++ version ++ "_profile_High.json", r3.2) }

/-- Substring test on character lists (Python's `in` on strings). -/
def containsSub (needle : List Char) : List Char → Bool
  | [] => needle.isEmpty
  | c :: cs => needle.isPrefixOf (c :: cs) || containsSub needle cs

/-- Python `'controls' in str(key).lower()`. -/
def matchesControls (name : String) : Bool :=
  containsSub "controls".toList (name.toList.map Char.toLower)

/-- Lines 209-211 of the source: iterate over the workbook's sheet names in
order, re-assigning `sheet_name` at every match, so the final value is the
last matching sheet; `none` when no sheet ever matched. -/
def selectSheet (sheet_names : List String) : Option String :=
  sheet_names.foldl (fun sheet_name key => if matchesControls key then some key else sheet_name)
    none

/-- Reading the selected sheet: when no sheet matched, the local
`sheet_name` was never assigned and line 214 raises NameError. -/
def selectSheetRun (sheet_names : List String) : Except String String :=
  match selectSheet sheet_names with
  | none => .error "NameError"
  | some name => .ok name

/-- The identifiers of the tier-`t` requirement parts in a part list, in
order (one entry per part whose severity class is `t`). -/
def partsTierIds (t : String) : List ReqPart → List String
  | [] => []
  | p :: ps => (if p.severity = t then [p.identifier] else []) ++ partsTierIds t ps

/-- The tier-`t` requirement identifiers of a control list, in traversal
order. -/
def tierIdsCtrls (t : String) : List Control → List String
  | [] => []
  | c :: cs => partsTierIds t c.reqParts ++ tierIdsCtrls t cs

/-- The tier-`t` requirement identifiers reachable from the catalog's
groups, in traversal order. -/
def tierIds (t : String) : List Group → List String
  | [] => []
  | g :: gs => tierIdsCtrls t g.controls ++ tierIds t gs

/-- Occurrence count of a string in a list. -/
def cnt (a : String) : List String → Nat
  | [] => 0
  | b :: bs => (if b = a then 1 else 0) + cnt a bs

/-- The requirement parts attached to the control at position `(gi, ci)`
(empty when the position does not exist). -/
def reqPartsAt (groups : List Group) (gi ci : Nat) : List ReqPart :=
  match nth? groups gi with
  | none => []
  | some g =>
    match nth? g.controls ci with
    | none => []
    | some c => c.reqParts

/-- Whether `(gi, ci)` addresses an existing control. -/
def validAtB (groups : List Group) (gi ci : Nat) : Bool :=
  match nth? groups gi with
  | none => false
  | some g => ci < g.controls.length

/-- Whether an `Except` computation failed. -/
def isErr {ε α : Type} : Except ε α → Bool
  | .error _ => true
  | .ok _ => false

/-- The substantial-tier identifier the rewriting rule assigns to a raw
requirement identifier (spec section 4.1): final character `'B'` becomes
`'S'`, anything else is passed through unchanged. -/
def substantialKey (req : String) : String :=
  if lastChar? req = some 'B' then dropLast1 req ++ "S" else req

/-- The high-tier identifier the rewriting rule assigns to a raw requirement
identifier: final character `'B'` or `'S'` becomes `'H'`, anything else is
passed through unchanged. -/
def highKey (req : String) : String :=
  if lastChar? req = some 'B' ∨ lastChar? req = some 'S' then dropLast1 req ++ "H" else req

/-- Counting distributes over list append. -/
theorem cnt_append (a : String) (l1 l2 : List String) :
    cnt a (l1 ++ l2) = cnt a l1 + cnt a l2 := by
  induction l1 with
  | nil => simp [cnt]
  | cons b bs ih => simp [cnt, ih]; omega

/-- Tier-identifier extraction distributes over part-list append. -/
theorem partsTierIds_append (t : String) (l1 l2 : List ReqPart) :
    partsTierIds t (l1 ++ l2) = partsTierIds t l1 ++ partsTierIds t l2 := by
  induction l1 with
  | nil => simp [partsTierIds]
  | cons p ps ih => simp [partsTierIds, ih]

/-- Tier-identifier extraction distributes over control-list append. -/
theorem tierIdsCtrls_append (t : String) (l1 l2 : List Control) :
    tierIdsCtrls t (l1 ++ l2) = tierIdsCtrls t l1 ++ tierIdsCtrls t l2 := by
  induction l1 with
  | nil => simp [tierIdsCtrls]
  | cons c cs ih => simp [tierIdsCtrls, ih]

/-- Tier-identifier extraction distributes over group-list append. -/
theorem tierIds_append (t : String) (l1 l2 : List Group) :
    tierIds t (l1 ++ l2) = tierIds t l1 ++ tierIds t l2 := by
  induction l1 with
  | nil => simp [tierIds]
  | cons g gs ih => simp [tierIds, ih]

/-- A successful positional lookup is unaffected by appending on the right. -/
theorem nth?_append_left {α : Type} (l1 l2 : List α) (n : Nat) (a : α)
    (h : nth? l1 n = some a) : nth? (l1 ++ l2) n = some a := by
  induction l1 generalizing n with
  | nil => simp [nth?] at h
  | cons b bs ih =>
    cases n with
    | zero => simpa [nth?] using h
    | succ m =>
      simp only [nth?] at h
      simpa [nth?] using ih m h

/-- Lookup at the updated index observes the update. -/
theorem nth?_updAt_self {α : Type} (l : List α) (i : Nat) (f : α → α) :
    nth? (updAt l i f) i = (nth? l i).map f := by
  induction l generalizing i with
  | nil => simp [updAt, nth?]
  | cons a as ih =>
    cases i with
    | zero => simp [updAt, nth?]
    | succ n => simpa [updAt, nth?] using ih n

/-- Lookup away from the updated index is unchanged. -/
theorem nth?_updAt_ne {α : Type} (l : List α) (i j : Nat) (f : α → α) (h : i ≠ j) :
    nth? (updAt l i f) j = nth? l j := by
  induction l generalizing i j with
  | nil => simp [updAt]
  | cons a as ih =>
    cases i with
    | zero =>
      cases j with
      | zero => exact absurd rfl h
      | succ m => simp [updAt, nth?]
    | succ n =>
      cases j with
      | zero => simp [updAt, nth?]
      | succ m =>
        simpa [updAt, nth?] using ih n m (fun hh => h (by rw [hh]))

/-- Updating an element keeps the length. -/
theorem length_updAt {α : Type} (l : List α) (i : Nat) (f : α → α) :
    (updAt l i f).length = l.length := by
  induction l generalizing i with
  | nil => rfl
  | cons a as ih =>
    cases i with
    | zero => simp [updAt]
    | succ n => simpa [updAt] using ih n

/-- A non-empty list has an element at its final index. -/
theorem nth?_last {α : Type} (l : List α) (h : l ≠ []) :
    ∃ a, nth? l (l.length - 1) = some a := by
  induction l with
  | nil => exact absurd rfl h
  | cons a as ih =>
    cases as with
    | nil => exact ⟨a, rfl⟩
    | cons b bs =>
      obtain ⟨x, hx⟩ := ih (by simp)
      refine ⟨x, ?_⟩
      simpa [nth?] using hx

/-- Contribution of a single part to a tier's identifier count. -/
theorem cnt_partsTierIds_single (t id : String) (p : ReqPart) :
    cnt id (partsTierIds t [p]) = if p.severity = t ∧ p.identifier = id then 1 else 0 := by
  by_cases hs : p.severity = t
  · by_cases hid : p.identifier = id
    · simp [partsTierIds, hs, hid, cnt]
    · simp [partsTierIds, hs, hid, cnt]
  · simp [partsTierIds, hs, cnt]

/-- Appending a requirement part to the control at a valid index raises the
tier-identifier count of the control list by exactly the part's own
contribution. -/
theorem cnt_tierIdsCtrls_updAt (t id : String) (cs : List Control) (ci : Nat) (p : ReqPart)
    (h : ci < cs.length) :
    cnt id (tierIdsCtrls t (updAt cs ci (fun c => { c with reqParts := c.reqParts ++ [p] }))) =
      cnt id (tierIdsCtrls t cs) + (if p.severity = t ∧ p.identifier = id then 1 else 0) := by
  induction cs generalizing ci with
  | nil => simp at h
  | cons c cs ih =>
    cases ci with
    | zero =>
      simp [updAt, tierIdsCtrls, partsTierIds_append, cnt_append, cnt_partsTierIds_single]
      omega
    | succ n =>
      have h' : n < cs.length := by simpa using h
      have hih := ih n h'
      simp only [updAt, tierIdsCtrls, cnt_append] at hih ⊢
      omega

/-- Appending a requirement part at a valid position raises the catalog's
tier-identifier count by exactly the part's own contribution. -/
theorem cnt_tierIds_appendReqAt (t id : String) (groups : List Group) (gi ci : Nat) (p : ReqPart)
    (h : validAtB groups gi ci = true) :
    cnt id (tierIds t (appendReqAt groups gi ci p)) =
      cnt id (tierIds t groups) + (if p.severity = t ∧ p.identifier = id then 1 else 0) := by
  induction groups generalizing gi with
  | nil => simp [validAtB, nth?] at h
  | cons g gs ih =>
    cases gi with
    | zero =>
      have hci : ci < g.controls.length := by simpa [validAtB, nth?] using h
      simp only [appendReqAt, updAt, tierIds, cnt_append]
      rw [cnt_tierIdsCtrls_updAt t id _ ci p hci]
      omega
    | succ n =>
      have h' : validAtB gs n ci = true := by simpa [validAtB, nth?] using h
      have hih := ih n h'
      simp only [appendReqAt, updAt, tierIds, cnt_append] at hih ⊢
      omega

/-- Appending a control with no requirement parts to the final group leaves
the catalog's tier identifiers unchanged. -/
theorem tierIds_appendCtrl (t : String) (groups : List Group) (c : Control)
    (hc : c.reqParts = []) (h : groups ≠ []) :
    tierIds t (updAt groups (groups.length - 1)
        (fun g0 => { g0 with controls := g0.controls ++ [c] })) =
      tierIds t groups := by
  induction groups with
  | nil => exact absurd rfl h
  | cons g gs ih =>
    cases gs with
    | nil =>
      simp [updAt, tierIds, tierIdsCtrls_append, tierIdsCtrls, partsTierIds, hc]
    | cons g2 gs2 =>
      have hih := ih (by simp)
      simp only [List.length_cons, Nat.add_sub_cancel] at hih ⊢
      simp only [updAt, tierIds] at hih ⊢
      rw [hih]

/-- `validAtB` unfolded to an existence statement. -/
theorem validAtB_iff (groups : List Group) (gi ci : Nat) :
    validAtB groups gi ci = true ↔ ∃ g, nth? groups gi = some g ∧ ci < g.controls.length := by
  unfold validAtB
  cases hn : nth? groups gi with
  | none => simp
  | some g => simp

/-- A valid control position stays valid when a group is appended. -/
theorem validAtB_append (groups : List Group) (g : Group) (gi ci : Nat)
    (h : validAtB groups gi ci = true) : validAtB (groups ++ [g]) gi ci = true := by
  rw [validAtB_iff] at h ⊢
  obtain ⟨g0, hn, hlt⟩ := h
  exact ⟨g0, nth?_append_left _ _ _ _ hn, hlt⟩

/-- A valid control position stays valid when a requirement part is appended
anywhere. -/
theorem validAtB_appendReqAt (groups : List Group) (gj cj : Nat) (p : ReqPart) (gi ci : Nat)
    (h : validAtB groups gi ci = true) :
    validAtB (appendReqAt groups gj cj p) gi ci = true := by
  rw [validAtB_iff] at h ⊢
  obtain ⟨g0, hn, hlt⟩ := h
  unfold appendReqAt
  by_cases hij : gj = gi
  · subst hij
    have hself := nth?_updAt_self groups gj (fun g => { g with controls := updAt g.controls cj (fun c => { c with reqParts := c.reqParts ++ [p] }) })
    rw [hn] at hself
    simp only [Option.map_some'] at hself
    refine ⟨_, hself, ?_⟩
    simpa [length_updAt] using hlt
  · refine ⟨g0, ?_, hlt⟩
    rw [nth?_updAt_ne _ _ _ _ hij]
    exact hn

/-- A valid control position stays valid when a control is appended to any
group. -/
theorem validAtB_updCtrlAppend (groups : List Group) (j : Nat) (c : Control) (gi ci : Nat)
    (h : validAtB groups gi ci = true) :
    validAtB (updAt groups j (fun g0 => { g0 with controls := g0.controls ++ [c] })) gi ci
      = true := by
  rw [validAtB_iff] at h ⊢
  obtain ⟨g0, hn, hlt⟩ := h
  by_cases hij : j = gi
  · subst hij
    have hself := nth?_updAt_self groups j (fun g0 => { g0 with controls := g0.controls ++ [c] })
    rw [hn] at hself
    simp only [Option.map_some'] at hself
    refine ⟨_, hself, ?_⟩
    simp only [List.length_append, List.length_cons, List.length_nil]
    omega
  · refine ⟨g0, ?_, hlt⟩
    rw [nth?_updAt_ne _ _ _ _ hij]
    exact hn

/-- The position of a control appended to the final group is valid
afterwards. -/
theorem validAtB_newControl (groups : List Group) (g : Group) (c : Control)
    (h : nth? groups (groups.length - 1) = some g) :
    validAtB (updAt groups (groups.length - 1)
        (fun g0 => { g0 with controls := g0.controls ++ [c] }))
      (groups.length - 1) g.controls.length = true := by
  rw [validAtB_iff]
  have hself := nth?_updAt_self groups (groups.length - 1) (fun g0 => { g0 with controls := g0.controls ++ [c] })
  rw [h] at hself
  simp only [Option.map_some'] at hself
  refine ⟨_, hself, ?_⟩
  simp

/-- Inversion for a successful `create_requirement`: the part records the
given severity class and the given identifier. -/
theorem create_requirement_spec (sev req cat title : String) (desc : Option String) (p : ReqPart)
    (h : create_requirement sev req cat title desc = .ok p) :
    p.severity = sev ∧ p.identifier = req := by
  unfold create_requirement at h
  split at h
  · exact absurd h (by simp)
  · split at h
    · exact absurd h (by simp)
    · injection h with h1
      rw [← h1]
      exact ⟨rfl, rfl⟩

/-- Inversion for a successful `addBasic`: a current control existed, the
part was created with the raw identifier, the raw identifier was appended to
the basic list and the part was appended at the current control. -/
theorem addBasic_spec (req cat : String) (desc : Option String) (s s1 : BuildState)
    (h : addBasic req cat desc s = .ok s1) :
    ∃ cc p, s.curControl = some cc ∧
      create_requirement "basic" req cat cc.title desc = .ok p ∧
      s1 = { s with basicProfile := s.basicProfile ++ [req],
                    groups := appendReqAt s.groups cc.gi cc.ci p } := by
  unfold addBasic at h
  split at h
  · exact absurd h (by simp)
  · rename_i cc hcc
    split at h
    · exact absurd h (by simp)
    · rename_i p hcr
      injection h with h1
      exact ⟨cc, p, hcc, hcr, h1.symm⟩

/-- Inversion for a successful `addSubstantial`: the identifier written both
to the part and to the substantial list is exactly `substantialKey` of the
raw identifier. -/
theorem addSubstantial_spec (req cat : String) (desc : Option String) (s s1 : BuildState)
    (h : addSubstantial req cat desc s = .ok s1) :
    ∃ cc p, s.curControl = some cc ∧
      create_requirement "substantial" (substantialKey req) cat cc.title desc = .ok p ∧
      s1 = { s with substantialProfile := s.substantialProfile ++ [substantialKey req],
                    groups := appendReqAt s.groups cc.gi cc.ci p } := by
  unfold addSubstantial at h
  split at h
  · exact absurd h (by simp)
  · rename_i lc hl
    split at h
    · rename_i hb
      have hkey : substantialKey req = dropLast1 req ++ "S" := by
        unfold substantialKey
        rw [hl, hb]
        simp
      split at h
      · exact absurd h (by simp)
      · rename_i cc hcc
        split at h
        · exact absurd h (by simp)
        · rename_i p hcr
          injection h with h1
          refine ⟨cc, p, hcc, ?_, ?_⟩
          · rw [hkey]
            exact hcr
          · rw [hkey]
            exact h1.symm
    · rename_i hb
      have hkey : substantialKey req = req := by
        unfold substantialKey
        rw [hl]
        rw [if_neg (by simpa using hb)]
      split at h
      · exact absurd h (by simp)
      · rename_i cc hcc
        split at h
        · exact absurd h (by simp)
        · rename_i p hcr
          injection h with h1
          refine ⟨cc, p, hcc, ?_, ?_⟩
          · rw [hkey]
            exact hcr
          · rw [hkey]
            exact h1.symm

/-- Inversion for a successful `addHigh`: the identifier written both to the
part and to the high list is exactly `highKey` of the raw identifier. -/
theorem addHigh_spec (req cat : String) (desc : Option String) (s s1 : BuildState)
    (h : addHigh req cat desc s = .ok s1) :
    ∃ cc p, s.curControl = some cc ∧
      create_requirement "high" (highKey req) cat cc.title desc = .ok p ∧
      s1 = { s with highProfile := s.highProfile ++ [highKey req],
                    groups := appendReqAt s.groups cc.gi cc.ci p } := by
  unfold addHigh at h
  split at h
  · exact absurd h (by simp)
  · rename_i lc hl
    split at h
    · rename_i hb
      have hkey : highKey req = dropLast1 req ++ "H" := by
        unfold highKey
        rw [hl]
        rw [if_pos (by simpa using hb)]
      split at h
      · exact absurd h (by simp)
      · rename_i cc hcc
        split at h
        · exact absurd h (by simp)
        · rename_i p hcr
          injection h with h1
          refine ⟨cc, p, hcc, ?_, ?_⟩
          · rw [hkey]
            exact hcr
          · rw [hkey]
            exact h1.symm
    · rename_i hb
      have hkey : highKey req = req := by
        unfold highKey
        rw [hl]
        rw [if_neg (by simpa using hb)]
      split at h
      · exact absurd h (by simp)
      · rename_i cc hcc
        split at h
        · exact absurd h (by simp)
        · rename_i p hcr
          injection h with h1
          refine ⟨cc, p, hcc, ?_, ?_⟩
          · rw [hkey]
            exact hcr
          · rw [hkey]
            exact h1.symm

/-- Inversion for a successful `create_control`: the new control starts with
no requirement parts. -/
theorem create_control_spec (cat k : String) (ti desc : Option String) (c : Control)
    (h : create_control cat k ti desc = .ok c) : c.reqParts = [] := by
  unfold create_control at h
  split at h
  · exact absurd h (by simp)
  · split at h
    · exact absurd h (by simp)
    · split at h
      · exact absurd h (by simp)
      · injection h with h1
        rw [← h1]

/-- Loop invariant, part 1: the current-control position (when set) addresses
an existing control of the catalog. -/
def validCur (s : BuildState) : Prop :=
  ∀ cc, s.curControl = some cc → validAtB s.groups cc.gi cc.ci = true

/-- Loop invariant, part 2: each tier list and the tier's requirement parts
in the tree agree up to multiplicity of every identifier. -/
def countsOk (s : BuildState) : Prop :=
  (∀ id, cnt id s.basicProfile = cnt id (tierIds "basic" s.groups)) ∧
  (∀ id, cnt id s.substantialProfile = cnt id (tierIds "substantial" s.groups)) ∧
  (∀ id, cnt id s.highProfile = cnt id (tierIds "high" s.groups))

/-- The loop invariant of the builder. -/
def Inv (s : BuildState) : Prop := validCur s ∧ countsOk s

/-- Appending a group without controls does not change the tier
identifiers. -/
theorem tierIds_append_emptyGroup (t : String) (l : List Group) (g : Group)
    (hg : g.controls = []) : tierIds t (l ++ [g]) = tierIds t l := by
  rw [tierIds_append]
  simp [tierIds, tierIdsCtrls, hg]

/-- Updating only the look-back cells preserves the invariant. -/
theorem updateLookback_Inv (row : Row) (t : BuildState) (ht : Inv t) :
    Inv (updateLookback row t) := by
  obtain ⟨hvc, hb, hsub, hhi⟩ := ht
  exact ⟨fun cc hcc => hvc cc hcc, hb, hsub, hhi⟩

/-- `addBasic` preserves the invariant. -/
theorem addBasic_Inv (req cat : String) (desc : Option String) (s s1 : BuildState)
    (h : addBasic req cat desc s = .ok s1) (hinv : Inv s) : Inv s1 := by
  obtain ⟨cc, p, hcc, hcr, hs1⟩ := addBasic_spec req cat desc s s1 h
  obtain ⟨hsev, hid⟩ := create_requirement_spec _ _ _ _ _ _ hcr
  obtain ⟨hvc, hb, hsub, hhi⟩ := hinv
  have hval : validAtB s.groups cc.gi cc.ci = true := hvc cc hcc
  subst hs1
  refine ⟨?_, ?_, ?_, ?_⟩
  · intro cc' hcc'
    have hcc2 : s.curControl = some cc' := hcc'
    exact validAtB_appendReqAt _ _ _ _ _ _ (hvc cc' hcc2)
  · intro id
    show cnt id (s.basicProfile ++ [req]) =
      cnt id (tierIds "basic" (appendReqAt s.groups cc.gi cc.ci p))
    rw [cnt_append, cnt_tierIds_appendReqAt _ _ _ _ _ _ hval, ← hb id, hsev, hid]
    by_cases hq : req = id
    · simp [cnt, hq]
    · simp [cnt, hq]
  · intro id
    show cnt id s.substantialProfile =
      cnt id (tierIds "substantial" (appendReqAt s.groups cc.gi cc.ci p))
    rw [cnt_tierIds_appendReqAt _ _ _ _ _ _ hval, ← hsub id, hsev]
    have hne : ("basic" : String) ≠ "substantial" := by decide
    simp [hne]
  · intro id
    show cnt id s.highProfile =
      cnt id (tierIds "high" (appendReqAt s.groups cc.gi cc.ci p))
    rw [cnt_tierIds_appendReqAt _ _ _ _ _ _ hval, ← hhi id, hsev]
    have hne : ("basic" : String) ≠ "high" := by decide
    simp [hne]

/-- `addSubstantial` preserves the invariant. -/
theorem addSubstantial_Inv (req cat : String) (desc : Option String) (s s1 : BuildState)
    (h : addSubstantial req cat desc s = .ok s1) (hinv : Inv s) : Inv s1 := by
  obtain ⟨cc, p, hcc, hcr, hs1⟩ := addSubstantial_spec req cat desc s s1 h
  obtain ⟨hsev, hid⟩ := create_requirement_spec _ _ _ _ _ _ hcr
  obtain ⟨hvc, hb, hsub, hhi⟩ := hinv
  have hval : validAtB s.groups cc.gi cc.ci = true := hvc cc hcc
  subst hs1
  refine ⟨?_, ?_, ?_, ?_⟩
  · intro cc' hcc'
    have hcc2 : s.curControl = some cc' := hcc'
    exact validAtB_appendReqAt _ _ _ _ _ _ (hvc cc' hcc2)
  · intro id
    show cnt id s.basicProfile =
      cnt id (tierIds "basic" (appendReqAt s.groups cc.gi cc.ci p))
    rw [cnt_tierIds_appendReqAt _ _ _ _ _ _ hval, ← hb id, hsev]
    have hne : ("substantial" : String) ≠ "basic" := by decide
    simp [hne]
  · intro id
    show cnt id (s.substantialProfile ++ [substantialKey req]) =
      cnt id (tierIds "substantial" (appendReqAt s.groups cc.gi cc.ci p))
    rw [cnt_append, cnt_tierIds_appendReqAt _ _ _ _ _ _ hval, ← hsub id, hsev, hid]
    by_cases hq : substantialKey req = id
    · simp [cnt, hq]
    · simp [cnt, hq]
  · intro id
    show cnt id s.highProfile =
      cnt id (tierIds "high" (appendReqAt s.groups cc.gi cc.ci p))
    rw [cnt_tierIds_appendReqAt _ _ _ _ _ _ hval, ← hhi id, hsev]
    have hne : ("substantial" : String) ≠ "high" := by decide
    simp [hne]

/-- `addHigh` preserves the invariant. -/
theorem addHigh_Inv (req cat : String) (desc : Option String) (s s1 : BuildState)
    (h : addHigh req cat desc s = .ok s1) (hinv : Inv s) : Inv s1 := by
  obtain ⟨cc, p, hcc, hcr, hs1⟩ := addHigh_spec req cat desc s s1 h
  obtain ⟨hsev, hid⟩ := create_requirement_spec _ _ _ _ _ _ hcr
  obtain ⟨hvc, hb, hsub, hhi⟩ := hinv
  have hval : validAtB s.groups cc.gi cc.ci = true := hvc cc hcc
  subst hs1
  refine ⟨?_, ?_, ?_, ?_⟩
  · intro cc' hcc'
    have hcc2 : s.curControl = some cc' := hcc'
    exact validAtB_appendReqAt _ _ _ _ _ _ (hvc cc' hcc2)
  · intro id
    show cnt id s.basicProfile =
      cnt id (tierIds "basic" (appendReqAt s.groups cc.gi cc.ci p))
    rw [cnt_tierIds_appendReqAt _ _ _ _ _ _ hval, ← hb id, hsev]
    have hne : ("high" : String) ≠ "basic" := by decide
    simp [hne]
  · intro id
    show cnt id s.substantialProfile =
      cnt id (tierIds "substantial" (appendReqAt s.groups cc.gi cc.ci p))
    rw [cnt_tierIds_appendReqAt _ _ _ _ _ _ hval, ← hsub id, hsev]
    have hne : ("high" : String) ≠ "substantial" := by decide
    simp [hne]
  · intro id
    show cnt id (s.highProfile ++ [highKey req]) =
      cnt id (tierIds "high" (appendReqAt s.groups cc.gi cc.ci p))
    rw [cnt_append, cnt_tierIds_appendReqAt _ _ _ _ _ _ hval, ← hhi id, hsev, hid]
    by_cases hq : highKey req = id
    · simp [cnt, hq]
    · simp [cnt, hq]

/-- One loop iteration preserves the invariant. -/
theorem step_Inv (s : BuildState) (row : Row) (s1 : BuildState)
    (h : step s row = .ok s1) (hinv : Inv s) : Inv s1 := by
  unfold step at h
  split at h
  · -- category-only row
    split at h
    · injection h with h1
      rw [← h1]
      exact updateLookback_Inv row s hinv
    · injection h with h1
      rw [← h1]
      apply updateLookback_Inv
      obtain ⟨hvc, hb, hsub, hhi⟩ := hinv
      refine ⟨?_, ?_, ?_, ?_⟩
      · intro cc hcc
        exact validAtB_append _ _ _ _ (hvc cc hcc)
      · intro id
        show cnt id s.basicProfile =
          cnt id (tierIds "basic" (s.groups ++ [create_category _ row.title]))
        rw [tierIds_append_emptyGroup _ _ _ rfl]
        exact hb id
      · intro id
        show cnt id s.substantialProfile =
          cnt id (tierIds "substantial" (s.groups ++ [create_category _ row.title]))
        rw [tierIds_append_emptyGroup _ _ _ rfl]
        exact hsub id
      · intro id
        show cnt id s.highProfile =
          cnt id (tierIds "high" (s.groups ++ [create_category _ row.title]))
        rw [tierIds_append_emptyGroup _ _ _ rfl]
        exact hhi id
  · -- control-only row
    split at h
    · injection h with h1
      rw [← h1]
      exact updateLookback_Inv row s hinv
    · split at h
      · exact absurd h (by simp)
      · rename_i c hcctl
        split at h
        · exact absurd h (by simp)
        · rename_i g hg
          injection h with h1
          rw [← h1]
          apply updateLookback_Inv
          have hcr : c.reqParts = [] := create_control_spec _ _ _ _ _ hcctl
          have hne : s.groups ≠ [] := by
            intro hcon
            rw [hcon] at hg
            simp [nth?] at hg
          obtain ⟨hvc, hb, hsub, hhi⟩ := hinv
          refine ⟨?_, ?_, ?_, ?_⟩
          · intro cc' hcc'
            have hcc2 : some _ = some cc' := hcc'
            injection hcc2 with hcc3
            rw [← hcc3]
            exact validAtB_newControl s.groups g c hg
          · intro id
            show cnt id s.basicProfile = _
            rw [tierIds_appendCtrl _ _ _ hcr hne]
            exact hb id
          · intro id
            show cnt id s.substantialProfile = _
            rw [tierIds_appendCtrl _ _ _ hcr hne]
            exact hsub id
          · intro id
            show cnt id s.highProfile = _
            rw [tierIds_appendCtrl _ _ _ hcr hne]
            exact hhi id
  · -- requirement row
    rename_i hA
    split at h
    · exact absurd h (by simp)
    · rename_i s1' heqA
      split at h
      · exact absurd h (by simp)
      · rename_i s2' heqB
        split at h
        · exact absurd h (by simp)
        · rename_i s3' heqC
          injection h with h1
          rw [← h1]
          apply updateLookback_Inv
          have hI1 : Inv s1' := by
            by_cases hb : row.basic.isSome = true
            · rw [if_pos hb] at heqA
              exact addBasic_Inv _ _ _ _ _ heqA hinv
            · rw [if_neg hb] at heqA
              injection heqA with h2
              rw [← h2]
              exact hinv
          have hI2 : Inv s2' := by
            by_cases hb : row.substantial.isSome = true
            · rw [if_pos hb] at heqB
              exact addSubstantial_Inv _ _ _ _ _ heqB hI1
            · rw [if_neg hb] at heqB
              injection heqB with h2
              rw [← h2]
              exact hI1
          by_cases hb : row.high.isSome = true
          · rw [if_pos hb] at heqC
            exact addHigh_Inv _ _ _ _ _ heqC hI2
          · rw [if_neg hb] at heqC
            injection heqC with h2
            rw [← h2]
            exact hI2
  · -- structurally unmatched row
    injection h with h1
    rw [← h1]
    exact updateLookback_Inv row s hinv

/-- The invariant propagates through the whole loop. -/
theorem runSteps_Inv (rows : List Row) (s s1 : BuildState)
    (h : runSteps s rows = .ok s1) (hinv : Inv s) : Inv s1 := by
  induction rows generalizing s with
  | nil =>
    unfold runSteps at h
    injection h with h1
    rw [← h1]
    exact hinv
  | cons r rs ih =>
    unfold runSteps at h
    split at h
    · exact absurd h (by simp)
    · rename_i s' hstep
      exact ih s' h (step_Inv s r s' hstep hinv)

/-- The initial state satisfies the invariant. -/
theorem initState_Inv : Inv initState := by
  refine ⟨?_, ?_, ?_, ?_⟩
  · intro cc hcc
    exact absurd hcc (by simp [initState])
  · intro id
    simp [initState, cnt, tierIds]
  · intro id
    simp [initState, cnt, tierIds]
  · intro id
    simp [initState, cnt, tierIds]

/-- An index below the length has an element. -/
theorem nth?_exists_of_lt {α : Type} (l : List α) (i : Nat) (h : i < l.length) :
    ∃ a, nth? l i = some a := by
  induction l generalizing i with
  | nil => simp at h
  | cons a as ih =>
    cases i with
    | zero => exact ⟨a, rfl⟩
    | succ n => exact ih n (by simpa using h)

/-- Appending a requirement part at a valid position appends it to the part
list observed at that position. -/
theorem reqPartsAt_appendReqAt (groups : List Group) (gi ci : Nat) (p : ReqPart)
    (h : validAtB groups gi ci = true) :
    reqPartsAt (appendReqAt groups gi ci p) gi ci = reqPartsAt groups gi ci ++ [p] := by
  rw [validAtB_iff] at h
  obtain ⟨g, hn, hlt⟩ := h
  obtain ⟨c, hc⟩ := nth?_exists_of_lt g.controls ci hlt
  simp only [reqPartsAt, appendReqAt, nth?_updAt_self, hn, hc, Option.map_some']

/-- `find?` over an append when the left part already finds something. -/
theorem find?_append_some (p : String → Bool) (l1 l2 : List String) (x : String)
    (h : l1.find? p = some x) : (l1 ++ l2).find? p = some x := by
  induction l1 with
  | nil => simp at h
  | cons a as ih =>
    by_cases ha : p a = true
    · rw [List.find?_cons_of_pos _ ha] at h
      rw [List.cons_append, List.find?_cons_of_pos _ ha]
      exact h
    · rw [List.find?_cons_of_neg _ ha] at h
      rw [List.cons_append, List.find?_cons_of_neg _ ha]
      exact ih h

/-- `find?` over an append when the left part finds nothing. -/
theorem find?_append_none (p : String → Bool) (l1 l2 : List String)
    (h : l1.find? p = none) : (l1 ++ l2).find? p = l2.find? p := by
  induction l1 with
  | nil => simp
  | cons a as ih =>
    by_cases ha : p a = true
    · rw [List.find?_cons_of_pos _ ha] at h
      simp at h
    · rw [List.find?_cons_of_neg _ ha] at h
      rw [List.cons_append, List.find?_cons_of_neg _ ha]
      exact ih h

/-- The source's overwrite-on-match fold is the first match of the reversed
sheet list, i.e. the last match in sheet order (with fallback `a`). -/
theorem foldSel (l : List String) (a : Option String) :
    l.foldl (fun sheet_name key => if matchesControls key then some key else sheet_name) a =
      match l.reverse.find? matchesControls with
      | some x => some x
      | none => a := by
  induction l generalizing a with
  | nil => simp
  | cons k ks ih =>
    simp only [List.foldl_cons, List.reverse_cons]
    rw [ih]
    cases hf : ks.reverse.find? matchesControls with
    | some x =>
      rw [find?_append_some _ _ _ _ hf]
    | none =>
      rw [find?_append_none _ _ _ hf]
      by_cases hk : matchesControls k
      · simp [hk, List.find?]
      · simp [hk, List.find?]

/-- `selectSheet` returns the last matching sheet name. -/
theorem selectSheet_eq (sheet_names : List String) :
    selectSheet sheet_names = sheet_names.reverse.find? matchesControls := by
  unfold selectSheet
  rw [foldSel]
  cases sheet_names.reverse.find? matchesControls <;> rfl

/-- Splitting a run of the loop at a list append. -/
theorem runSteps_append (s : BuildState) (l1 l2 : List Row) :
    runSteps s (l1 ++ l2) =
      match runSteps s l1 with
      | .error e => .error e
      | .ok s1 => runSteps s1 l2 := by
  induction l1 generalizing s with
  | nil => rfl
  | cons r rs ih =>
    simp only [List.cons_append]
    cases hstep : step s r with
    | error e => simp [runSteps, hstep]
    | ok s2 => simp [runSteps, hstep, ih]

/-- Effect of a successful `addBasic` on the profiles and on the parts at
the current control: the raw identifier is recorded in both places, other
tiers are untouched. -/
theorem addBasic_effect (req cat : String) (desc : Option String) (s s1 : BuildState)
    (cc : CurControl) (hcc : s.curControl = some cc)
    (hv : validAtB s.groups cc.gi cc.ci = true)
    (h : addBasic req cat desc s = .ok s1) :
    s1.basicProfile = s.basicProfile ++ [req] ∧
    s1.substantialProfile = s.substantialProfile ∧
    s1.highProfile = s.highProfile ∧
    s1.curControl = some cc ∧
    validAtB s1.groups cc.gi cc.ci = true ∧
    partsTierIds "basic" (reqPartsAt s1.groups cc.gi cc.ci) =
      partsTierIds "basic" (reqPartsAt s.groups cc.gi cc.ci) ++ [req] ∧
    partsTierIds "substantial" (reqPartsAt s1.groups cc.gi cc.ci) =
      partsTierIds "substantial" (reqPartsAt s.groups cc.gi cc.ci) ∧
    partsTierIds "high" (reqPartsAt s1.groups cc.gi cc.ci) =
      partsTierIds "high" (reqPartsAt s.groups cc.gi cc.ci) := by
  obtain ⟨cc0, p, hcc0, hcr, hs1⟩ := addBasic_spec req cat desc s s1 h
  rw [hcc] at hcc0
  injection hcc0 with hcc1
  subst hcc1
  obtain ⟨hsev, hid⟩ := create_requirement_spec _ _ _ _ _ _ hcr
  subst hs1
  have hra := reqPartsAt_appendReqAt s.groups cc.gi cc.ci p hv
  have hb : ("basic" : String) ≠ "substantial" := by decide
  have hh : ("basic" : String) ≠ "high" := by decide
  refine ⟨rfl, rfl, rfl, hcc, validAtB_appendReqAt _ _ _ _ _ _ hv, ?_, ?_, ?_⟩
  · show partsTierIds "basic" (reqPartsAt (appendReqAt s.groups cc.gi cc.ci p) cc.gi cc.ci) = _
    rw [hra, partsTierIds_append]
    simp [partsTierIds, hsev, hid]
  · show partsTierIds "substantial" (reqPartsAt (appendReqAt s.groups cc.gi cc.ci p) cc.gi cc.ci) = _
    rw [hra, partsTierIds_append]
    simp [partsTierIds, hsev, hb.symm]
  · show partsTierIds "high" (reqPartsAt (appendReqAt s.groups cc.gi cc.ci p) cc.gi cc.ci) = _
    rw [hra, partsTierIds_append]
    simp [partsTierIds, hsev, hh.symm]

/-- Effect of a successful `addSubstantial`: the rewritten identifier
(`substantialKey`) is recorded both in the substantial list and on the new
part, other tiers are untouched. -/
theorem addSubstantial_effect (req cat : String) (desc : Option String) (s s1 : BuildState)
    (cc : CurControl) (hcc : s.curControl = some cc)
    (hv : validAtB s.groups cc.gi cc.ci = true)
    (h : addSubstantial req cat desc s = .ok s1) :
    s1.basicProfile = s.basicProfile ∧
    s1.substantialProfile = s.substantialProfile ++ [substantialKey req] ∧
    s1.highProfile = s.highProfile ∧
    s1.curControl = some cc ∧
    validAtB s1.groups cc.gi cc.ci = true ∧
    partsTierIds "basic" (reqPartsAt s1.groups cc.gi cc.ci) =
      partsTierIds "basic" (reqPartsAt s.groups cc.gi cc.ci) ∧
    partsTierIds "substantial" (reqPartsAt s1.groups cc.gi cc.ci) =
      partsTierIds "substantial" (reqPartsAt s.groups cc.gi cc.ci) ++ [substantialKey req] ∧
    partsTierIds "high" (reqPartsAt s1.groups cc.gi cc.ci) =
      partsTierIds "high" (reqPartsAt s.groups cc.gi cc.ci) := by
  obtain ⟨cc0, p, hcc0, hcr, hs1⟩ := addSubstantial_spec req cat desc s s1 h
  rw [hcc] at hcc0
  injection hcc0 with hcc1
  subst hcc1
  obtain ⟨hsev, hid⟩ := create_requirement_spec _ _ _ _ _ _ hcr
  subst hs1
  have hra := reqPartsAt_appendReqAt s.groups cc.gi cc.ci p hv
  have hb : ("substantial" : String) ≠ "basic" := by decide
  have hh : ("substantial" : String) ≠ "high" := by decide
  refine ⟨rfl, rfl, rfl, hcc, validAtB_appendReqAt _ _ _ _ _ _ hv, ?_, ?_, ?_⟩
  · show partsTierIds "basic" (reqPartsAt (appendReqAt s.groups cc.gi cc.ci p) cc.gi cc.ci) = _
    rw [hra, partsTierIds_append]
    simp [partsTierIds, hsev, hb.symm]
  · show partsTierIds "substantial" (reqPartsAt (appendReqAt s.groups cc.gi cc.ci p) cc.gi cc.ci) = _
    rw [hra, partsTierIds_append]
    simp [partsTierIds, hsev, hid]
  · show partsTierIds "high" (reqPartsAt (appendReqAt s.groups cc.gi cc.ci p) cc.gi cc.ci) = _
    rw [hra, partsTierIds_append]
    simp [partsTierIds, hsev, hh.symm]

/-- Effect of a successful `addHigh`: the rewritten identifier (`highKey`)
is recorded both in the high list and on the new part, other tiers are
untouched. -/
theorem addHigh_effect (req cat : String) (desc : Option String) (s s1 : BuildState)
    (cc : CurControl) (hcc : s.curControl = some cc)
    (hv : validAtB s.groups cc.gi cc.ci = true)
    (h : addHigh req cat desc s = .ok s1) :
    s1.basicProfile = s.basicProfile ∧
    s1.substantialProfile = s.substantialProfile ∧
    s1.highProfile = s.highProfile ++ [highKey req] ∧
    s1.curControl = some cc ∧
    validAtB s1.groups cc.gi cc.ci = true ∧
    partsTierIds "basic" (reqPartsAt s1.groups cc.gi cc.ci) =
      partsTierIds "basic" (reqPartsAt s.groups cc.gi cc.ci) ∧
    partsTierIds "substantial" (reqPartsAt s1.groups cc.gi cc.ci) =
      partsTierIds "substantial" (reqPartsAt s.groups cc.gi cc.ci) ∧
    partsTierIds "high" (reqPartsAt s1.groups cc.gi cc.ci) =
      partsTierIds "high" (reqPartsAt s.groups cc.gi cc.ci) ++ [highKey req] := by
  obtain ⟨cc0, p, hcc0, hcr, hs1⟩ := addHigh_spec req cat desc s s1 h
  rw [hcc] at hcc0
  injection hcc0 with hcc1
  subst hcc1
  obtain ⟨hsev, hid⟩ := create_requirement_spec _ _ _ _ _ _ hcr
  subst hs1
  have hra := reqPartsAt_appendReqAt s.groups cc.gi cc.ci p hv
  have hb : ("high" : String) ≠ "basic" := by decide
  have hh : ("high" : String) ≠ "substantial" := by decide
  refine ⟨rfl, rfl, rfl, hcc, validAtB_appendReqAt _ _ _ _ _ _ hv, ?_, ?_, ?_⟩
  · show partsTierIds "basic" (reqPartsAt (appendReqAt s.groups cc.gi cc.ci p) cc.gi cc.ci) = _
    rw [hra, partsTierIds_append]
    simp [partsTierIds, hsev, hb.symm]
  · show partsTierIds "substantial" (reqPartsAt (appendReqAt s.groups cc.gi cc.ci p) cc.gi cc.ci) = _
    rw [hra, partsTierIds_append]
    simp [partsTierIds, hsev, hh.symm]
  · show partsTierIds "high" (reqPartsAt (appendReqAt s.groups cc.gi cc.ci p) cc.gi cc.ci) = _
    rw [hra, partsTierIds_append]
    simp [partsTierIds, hsev, hid]

/-- Effect of one requirement-complete row on the three profile lists and on
the parts attached to the current control: each set tier flag contributes
exactly its (tier-rewritten) identifier to its list and to the parts, in
both places, and unset flags contribute nothing. -/
theorem step_req_spec (s : BuildState) (ot od ob osub ohigh : Option String)
    (cat ctrl req : String) (s' : BuildState) (cc : CurControl)
    (hcc : s.curControl = some cc) (hv : validAtB s.groups cc.gi cc.ci = true)
    (hok : step s (Row.mk (some cat) (some ctrl) (some req) ot od ob osub ohigh) = .ok s') :
    s'.basicProfile = s.basicProfile ++ (if ob.isSome then [req] else []) ∧
    s'.substantialProfile =
      s.substantialProfile ++ (if osub.isSome then [substantialKey req] else []) ∧
    s'.highProfile = s.highProfile ++ (if ohigh.isSome then [highKey req] else []) ∧
    partsTierIds "basic" (reqPartsAt s'.groups cc.gi cc.ci) =
      partsTierIds "basic" (reqPartsAt s.groups cc.gi cc.ci) ++
        (if ob.isSome then [req] else []) ∧
    partsTierIds "substantial" (reqPartsAt s'.groups cc.gi cc.ci) =
      partsTierIds "substantial" (reqPartsAt s.groups cc.gi cc.ci) ++
        (if osub.isSome then [substantialKey req] else []) ∧
    partsTierIds "high" (reqPartsAt s'.groups cc.gi cc.ci) =
      partsTierIds "high" (reqPartsAt s.groups cc.gi cc.ci) ++
        (if ohigh.isSome then [highKey req] else []) := by
  simp only [step] at hok
  split at hok
  · exact absurd hok (by simp)
  · rename_i s1 heqA
    split at hok
    · exact absurd hok (by simp)
    · rename_i s2 heqB
      split at hok
      · exact absurd hok (by simp)
      · rename_i s3 heqC
        injection hok with hok1
        have hA : s1.basicProfile = s.basicProfile ++ (if ob.isSome then [req] else []) ∧
            s1.substantialProfile = s.substantialProfile ∧
            s1.highProfile = s.highProfile ∧
            s1.curControl = some cc ∧
            validAtB s1.groups cc.gi cc.ci = true ∧
            partsTierIds "basic" (reqPartsAt s1.groups cc.gi cc.ci) =
              partsTierIds "basic" (reqPartsAt s.groups cc.gi cc.ci) ++
                (if ob.isSome then [req] else []) ∧
            partsTierIds "substantial" (reqPartsAt s1.groups cc.gi cc.ci) =
              partsTierIds "substantial" (reqPartsAt s.groups cc.gi cc.ci) ∧
            partsTierIds "high" (reqPartsAt s1.groups cc.gi cc.ci) =
              partsTierIds "high" (reqPartsAt s.groups cc.gi cc.ci) := by
          by_cases hb : ob.isSome = true
          · rw [if_pos hb] at heqA
            have he := addBasic_effect req cat od s s1 cc hcc hv heqA
            simpa [hb] using he
          · rw [if_neg hb] at heqA
            injection heqA with h2
            subst h2
            simp [hb, hcc, hv]
        obtain ⟨hA1, hA2, hA3, hA4, hA5, hA6, hA7, hA8⟩ := hA
        have hB : s2.basicProfile = s1.basicProfile ∧
            s2.substantialProfile =
              s1.substantialProfile ++ (if osub.isSome then [substantialKey req] else []) ∧
            s2.highProfile = s1.highProfile ∧
            s2.curControl = some cc ∧
            validAtB s2.groups cc.gi cc.ci = true ∧
            partsTierIds "basic" (reqPartsAt s2.groups cc.gi cc.ci) =
              partsTierIds "basic" (reqPartsAt s1.groups cc.gi cc.ci) ∧
            partsTierIds "substantial" (reqPartsAt s2.groups cc.gi cc.ci) =
              partsTierIds "substantial" (reqPartsAt s1.groups cc.gi cc.ci) ++
                (if osub.isSome then [substantialKey req] else []) ∧
            partsTierIds "high" (reqPartsAt s2.groups cc.gi cc.ci) =
              partsTierIds "high" (reqPartsAt s1.groups cc.gi cc.ci) := by
          by_cases hb : osub.isSome = true
          · rw [if_pos hb] at heqB
            have he := addSubstantial_effect req cat od s1 s2 cc hA4 hA5 heqB
            simpa [hb] using he
          · rw [if_neg hb] at heqB
            injection heqB with h2
            subst h2
            simp [hb, hA4, hA5]
        obtain ⟨hB1, hB2, hB3, hB4, hB5, hB6, hB7, hB8⟩ := hB
        have hC : s3.basicProfile = s2.basicProfile ∧
            s3.substantialProfile = s2.substantialProfile ∧
            s3.highProfile = s2.highProfile ++ (if ohigh.isSome then [highKey req] else []) ∧
            partsTierIds "basic" (reqPartsAt s3.groups cc.gi cc.ci) =
              partsTierIds "basic" (reqPartsAt s2.groups cc.gi cc.ci) ∧
            partsTierIds "substantial" (reqPartsAt s3.groups cc.gi cc.ci) =
              partsTierIds "substantial" (reqPartsAt s2.groups cc.gi cc.ci) ∧
            partsTierIds "high" (reqPartsAt s3.groups cc.gi cc.ci) =
              partsTierIds "high" (reqPartsAt s2.groups cc.gi cc.ci) ++
                (if ohigh.isSome then [highKey req] else []) := by
          by_cases hb : ohigh.isSome = true
          · rw [if_pos hb] at heqC
            have he := addHigh_effect req cat od s2 s3 cc hB4 hB5 heqC
            simp only [hb, if_true]
            exact ⟨he.1, he.2.1, he.2.2.1, he.2.2.2.2.2.1, he.2.2.2.2.2.2.1,
                   he.2.2.2.2.2.2.2⟩
          · rw [if_neg hb] at heqC
            injection heqC with h2
            subst h2
            simp [hb]
        obtain ⟨hC1, hC2, hC3, hC4, hC5, hC6⟩ := hC
        rw [← hok1]
        refine ⟨?_, ?_, ?_, ?_, ?_, ?_⟩
        · show s3.basicProfile = _
          rw [hC1, hB1, hA1]
        · show s3.substantialProfile = _
          rw [hC2, hB2, hA2]
        · show s3.highProfile = _
          rw [hC3, hB3, hA3]
        · show partsTierIds "basic" (reqPartsAt s3.groups cc.gi cc.ci) = _
          rw [hC4, hB6, hA6]
        · show partsTierIds "substantial" (reqPartsAt s3.groups cc.gi cc.ci) = _
          rw [hC5, hB7, hA7]
        · show partsTierIds "high" (reqPartsAt s3.groups cc.gi cc.ci) = _
          rw [hC6, hB8, hA8]

/-- A successful `create_requirement` implies the description cell was
present (otherwise the prose concatenation raises TypeError). -/
theorem create_requirement_desc (sev req cat title : String) (desc : Option String) (p : ReqPart)
    (h : create_requirement sev req cat title desc = .ok p) : ∃ d, desc = some d := by
  unfold create_requirement at h
  split at h
  · exact absurd h (by simp)
  · split at h
    · exact absurd h (by simp)
    · rename_i hd
      exact ⟨hd, rfl⟩

/-- If a requirement-complete row with at least one tier flag set is
processed successfully, then a current control had been established and the
description cell was present. -/
theorem step_req_ok_inv (s : BuildState) (ot od ob osub ohigh : Option String)
    (cat ctrl req : String) (s' : BuildState)
    (hok : step s (Row.mk (some cat) (some ctrl) (some req) ot od ob osub ohigh) = .ok s')
    (hflag : ob.isSome = true ∨ osub.isSome = true ∨ ohigh.isSome = true) :
    (∃ cc, s.curControl = some cc) ∧ (∃ d, od = some d) := by
  simp only [step] at hok
  split at hok
  · exact absurd hok (by simp)
  · rename_i s1 heqA
    split at hok
    · exact absurd hok (by simp)
    · rename_i s2 heqB
      split at hok
      · exact absurd hok (by simp)
      · rename_i s3 heqC
        rcases hflag with hb | hs2 | hh2
        · rw [if_pos hb] at heqA
          obtain ⟨cc, p, hcc, hcr, _⟩ := addBasic_spec _ _ _ _ _ heqA
          obtain ⟨d, hd⟩ := create_requirement_desc _ _ _ _ _ _ hcr
          exact ⟨⟨cc, hcc⟩, ⟨d, hd⟩⟩
        · rw [if_pos hs2] at heqB
          obtain ⟨cc, p, hcc1, hcr, _⟩ := addSubstantial_spec _ _ _ _ _ heqB
          obtain ⟨d, hd⟩ := create_requirement_desc _ _ _ _ _ _ hcr
          have hcc0 : s.curControl = some cc := by
            by_cases hbb : ob.isSome = true
            · rw [if_pos hbb] at heqA
              obtain ⟨cc0, p0, hcc9, _, hs1⟩ := addBasic_spec _ _ _ _ _ heqA
              subst hs1
              exact hcc1
            · rw [if_neg hbb] at heqA
              injection heqA with h2
              subst h2
              exact hcc1
          exact ⟨⟨cc, hcc0⟩, ⟨d, hd⟩⟩
        · rw [if_pos hh2] at heqC
          obtain ⟨cc, p, hcc2, hcr, _⟩ := addHigh_spec _ _ _ _ _ heqC
          obtain ⟨d, hd⟩ := create_requirement_desc _ _ _ _ _ _ hcr
          have hcc1 : s1.curControl = some cc := by
            by_cases hbs : osub.isSome = true
            · rw [if_pos hbs] at heqB
              obtain ⟨cc0, p0, hcc9, _, hs2'⟩ := addSubstantial_spec _ _ _ _ _ heqB
              subst hs2'
              exact hcc2
            · rw [if_neg hbs] at heqB
              injection heqB with h2
              subst h2
              exact hcc2
          have hcc0 : s.curControl = some cc := by
            by_cases hbb : ob.isSome = true
            · rw [if_pos hbb] at heqA
              obtain ⟨cc0, p0, hcc9, _, hs1⟩ := addBasic_spec _ _ _ _ _ heqA
              subst hs1
              exact hcc1
            · rw [if_neg hbb] at heqA
              injection heqA with h2
              subst h2
              exact hcc1
          exact ⟨⟨cc, hcc0⟩, ⟨d, hd⟩⟩

/-- A row matching none of the three structural patterns is processed
without error and only updates the look-back cells. -/
theorem step_unmatched (s : BuildState) (row : Row)
    (h : row.category = none ∨ (row.control = none ∧ row.requirement.isSome = true)) :
    step s row = .ok (updateLookback row s) := by
  obtain ⟨oc, octl, oreq, ot, od, ob, osub, ohigh⟩ := row
  rcases h with hcat | ⟨hctl, hreq⟩
  · have h1 : oc = none := hcat
    subst h1
    cases octl <;> cases oreq <;> rfl
  · have h1 : octl = none := hctl
    subst h1
    obtain ⟨r, hr⟩ := Option.isSome_iff_exists.mp hreq
    have h2 : oreq = some r := hr
    subst h2
    cases oc with
    | none => rfl
    | some c => rfl

/-- After any successfully processed row, the look-back cells hold exactly
that row's category and control cells (the final two assignments of the loop
body run on every path). -/
theorem step_lookback (s : BuildState) (r : Row) (s' : BuildState)
    (h : step s r = .ok s') : s'.lastCat = r.category ∧ s'.lastCtrl = r.control := by
  unfold step at h
  split at h
  · split at h
    · injection h with h1
      rw [← h1]
      exact ⟨rfl, rfl⟩
    · injection h with h1
      rw [← h1]
      exact ⟨rfl, rfl⟩
  · split at h
    · injection h with h1
      rw [← h1]
      exact ⟨rfl, rfl⟩
    · split at h
      · exact absurd h (by simp)
      · split at h
        · exact absurd h (by simp)
        · injection h with h1
          rw [← h1]
          exact ⟨rfl, rfl⟩
  · split at h
    · exact absurd h (by simp)
    · split at h
      · exact absurd h (by simp)
      · split at h
        · exact absurd h (by simp)
        · injection h with h1
          rw [← h1]
          exact ⟨rfl, rfl⟩
  · injection h with h1
    rw [← h1]
    exact ⟨rfl, rfl⟩

/-- Row-level variant of `step_req_ok_inv`, with the requirement-complete
pattern given by field hypotheses. -/
theorem step_req_ok_inv2 (s : BuildState) (row : Row) (cat ctrl req : String) (s' : BuildState)
    (hc : row.category = some cat) (hk : row.control = some ctrl)
    (hr : row.requirement = some req)
    (hok : step s row = .ok s')
    (hflag : row.basic.isSome = true ∨ row.substantial.isSome = true ∨
      row.high.isSome = true) :
    (∃ cc, s.curControl = some cc) ∧ (∃ d, row.description = some d) := by
  obtain ⟨oc, octl, oreq, ot, od, ob, osub, ohigh⟩ := row
  have h1 : oc = some cat := hc
  have h2 : octl = some ctrl := hk
  have h3 : oreq = some req := hr
  subst h1
  subst h2
  subst h3
  exact step_req_ok_inv s ot od ob osub ohigh cat ctrl req s' hok hflag

/-- Row-level variant of `step_req_spec`, with the requirement-complete
pattern given by field hypotheses. -/
theorem step_req_spec2 (s : BuildState) (row : Row) (cat ctrl req : String) (s' : BuildState)
    (cc : CurControl)
    (hc : row.category = some cat) (hk : row.control = some ctrl)
    (hr : row.requirement = some req)
    (hcc : s.curControl = some cc) (hv : validAtB s.groups cc.gi cc.ci = true)
    (hok : step s row = .ok s') :
    s'.basicProfile = s.basicProfile ++ (if row.basic.isSome then [req] else []) ∧
    s'.substantialProfile =
      s.substantialProfile ++ (if row.substantial.isSome then [substantialKey req] else []) ∧
    s'.highProfile = s.highProfile ++ (if row.high.isSome then [highKey req] else []) ∧
    partsTierIds "basic" (reqPartsAt s'.groups cc.gi cc.ci) =
      partsTierIds "basic" (reqPartsAt s.groups cc.gi cc.ci) ++
        (if row.basic.isSome then [req] else []) ∧
    partsTierIds "substantial" (reqPartsAt s'.groups cc.gi cc.ci) =
      partsTierIds "substantial" (reqPartsAt s.groups cc.gi cc.ci) ++
        (if row.substantial.isSome then [substantialKey req] else []) ∧
    partsTierIds "high" (reqPartsAt s'.groups cc.gi cc.ci) =
      partsTierIds "high" (reqPartsAt s.groups cc.gi cc.ci) ++
        (if row.high.isSome then [highKey req] else []) := by
  obtain ⟨oc, octl, oreq, ot, od, ob, osub, ohigh⟩ := row
  have h1 : oc = some cat := hc
  have h2 : octl = some ctrl := hk
  have h3 : oreq = some req := hr
  subst h1
  subst h2
  subst h3
  exact step_req_spec s ot od ob osub ohigh cat ctrl req s' cc hcc hv hok

/- Concrete rows for witnesses and counterexamples. -/

/-- A category-only row with the given category id and title. -/
def mkCatRow (c ti : String) : Row :=
  { category := some c, control := none, requirement := none, title := some ti,
    description := none, basic := none, substantial := none, high := none }

/-- A control-only row with the given category id, control id and title. -/
def mkCtrlRow (c k ti : String) : Row :=
  { category := some c, control := some k, requirement := none, title := some ti,
    description := none, basic := none, substantial := none, high := none }

/-- A requirement-complete row with the given cells. -/
def mkReqRow (c k r : String) (d b sm h : Option String) : Row :=
  { category := some c, control := some k, requirement := some r, title := none,
    description := d, basic := b, substantial := sm, high := h }

/-- One category row and one control row, establishing a current control. -/
def preRows : List Row := [mkCatRow "C1" "Cat One", mkCtrlRow "C1" "C1.CTRL" "Do Thing"]

/-- C1: for every requirement row processed successfully whose substantial
flag is set, the identifier recorded for the Substantial tier — both in the
substantial identifier list and, as the filtered parts show, on the one
substantial Requirement part synthesized at the current control — equals the
raw identifier with a final 'B' replaced by 'S' and is the raw identifier
unchanged otherwise (`substantialKey`); likewise for the high flag, a final
'B' or 'S' is replaced by 'H' and any other identifier is passed through
unchanged (`highKey`). -/
theorem claim_C1 (s : BuildState) (row : Row) (s' : BuildState)
    (cat ctrl req : String) (cc : CurControl)
    (hc : row.category = some cat) (hk : row.control = some ctrl)
    (hr : row.requirement = some req)
    (hcc : s.curControl = some cc) (hv : validAtB s.groups cc.gi cc.ci = true)
    (hok : step s row = .ok s') :
    (row.substantial.isSome = true →
      s'.substantialProfile = s.substantialProfile ++ [substantialKey req] ∧
      partsTierIds "substantial" (reqPartsAt s'.groups cc.gi cc.ci) =
        partsTierIds "substantial" (reqPartsAt s.groups cc.gi cc.ci) ++ [substantialKey req]) ∧
    (row.high.isSome = true →
      s'.highProfile = s.highProfile ++ [highKey req] ∧
      partsTierIds "high" (reqPartsAt s'.groups cc.gi cc.ci) =
        partsTierIds "high" (reqPartsAt s.groups cc.gi cc.ci) ++ [highKey req]) := by
  obtain ⟨hbeq, hseq, hheq, hpb, hps, hph⟩ :=
    step_req_spec2 s row cat ctrl req s' cc hc hk hr hcc hv hok
  constructor
  · intro hf
    simp only [hf, if_true] at hseq hps
    exact ⟨hseq, hps⟩
  · intro hf
    simp only [hf, if_true] at hheq hph
    exact ⟨hheq, hph⟩

/-- Witness for C1: the substantial-flagged row `R1B` after a category and a
control row extends the substantial list by `substantialKey "R1B" = "R1S"`. -/
theorem claim_C1_witness :
    (builtState (preRows ++ [mkReqRow "C1" "C1.CTRL" "R1B" (some "desc") none (some "x") (some "x")])).substantialProfile =
      (builtState preRows).substantialProfile ++ [substantialKey "R1B"] :=
  ((claim_C1 (builtState preRows)
      (mkReqRow "C1" "C1.CTRL" "R1B" (some "desc") none (some "x") (some "x"))
      (builtState (preRows ++ [mkReqRow "C1" "C1.CTRL" "R1B" (some "desc") none (some "x") (some "x")]))
      "C1" "C1.CTRL" "R1B" { gi := 0, ci := 0, title := "Do Thing" }
      rfl rfl rfl rfl rfl rfl).1 rfl).1

/-- C10: for every requirement row processed successfully whose basic flag
is set, the identifier appended to the basic list and recorded on the
basic-tier Requirement part is the raw identifier unchanged — there is no
hypothesis on the trailing character, so no rewriting is applied even for
identifiers ending in 'S' or 'H'. -/
theorem claim_C10 (s : BuildState) (row : Row) (s' : BuildState)
    (cat ctrl req : String) (cc : CurControl)
    (hc : row.category = some cat) (hk : row.control = some ctrl)
    (hr : row.requirement = some req)
    (hcc : s.curControl = some cc) (hv : validAtB s.groups cc.gi cc.ci = true)
    (hok : step s row = .ok s') :
    row.basic.isSome = true →
      s'.basicProfile = s.basicProfile ++ [req] ∧
      partsTierIds "basic" (reqPartsAt s'.groups cc.gi cc.ci) =
        partsTierIds "basic" (reqPartsAt s.groups cc.gi cc.ci) ++ [req] := by
  obtain ⟨hbeq, hseq, hheq, hpb, hps, hph⟩ :=
    step_req_spec2 s row cat ctrl req s' cc hc hk hr hcc hv hok
  intro hf
  simp only [hf, if_true] at hbeq hpb
  exact ⟨hbeq, hpb⟩

/-- Witness for C10 at the raw identifier `R1H`, which ends in 'H' and is
still recorded unchanged for the Basic tier. -/
theorem claim_C10_witness :
    (builtState (preRows ++ [mkReqRow "C1" "C1.CTRL" "R1H" (some "d") (some "x") none none])).basicProfile =
      (builtState preRows).basicProfile ++ ["R1H"] :=
  ((claim_C10 (builtState preRows)
      (mkReqRow "C1" "C1.CTRL" "R1H" (some "d") (some "x") none none)
      (builtState (preRows ++ [mkReqRow "C1" "C1.CTRL" "R1H" (some "d") (some "x") none none]))
      "C1" "C1.CTRL" "R1H" { gi := 0, ci := 0, title := "Do Thing" }
      rfl rfl rfl rfl rfl rfl) rfl).1

/-- Rows that append the identifier `R1B` for the basic tier twice. -/
def c2rows : List Row :=
  [mkCatRow "C1" "Cat One", mkCtrlRow "C1" "C1.CTRL" "Do Thing",
   mkReqRow "C1" "C1.CTRL" "R1B" (some "d") (some "x") none none,
   mkReqRow "C1" "C1.CTRL" "R1B" (some "d") (some "x") none none]

/-- C2 counterexample: with two identical basic requirement rows the builder
completes, the identifier `R1B` is in the basic list, but TWO basic-tier
Requirement parts reachable from the catalog carry that identifier (the
tier-identifier listing of the tree contains it twice), so `R1B` is not the
identifier of exactly one Requirement part as the claim demands. -/
theorem claim_C2_counterexample :
    cnt "R1B" (builtState c2rows).basicProfile = 2 ∧
    cnt "R1B" (tierIds "basic" (builtState c2rows).groups) = 2 := ⟨rfl, rfl⟩

/-- C2 (amended): for every row sequence the builder completes on, each
tier's identifier list and the tier's Requirement parts reachable from the
catalog agree up to multiplicity: every identifier occurs in the list
exactly as often as Requirement parts of that tier carry it (so membership
holds in both directions, but duplicates are possible). -/
theorem claim_C2_amended (rows : List Row) (st : BuildState) (id : String)
    (h : buildRows rows = .ok st) :
    cnt id st.basicProfile = cnt id (tierIds "basic" st.groups) ∧
    cnt id st.substantialProfile = cnt id (tierIds "substantial" st.groups) ∧
    cnt id st.highProfile = cnt id (tierIds "high" st.groups) := by
  obtain ⟨hvc, hb, hsub, hhi⟩ := runSteps_Inv rows initState st h initState_Inv
  exact ⟨hb id, hsub id, hhi id⟩

/-- Witness for the amended C2 on the duplicate-row input. -/
theorem claim_C2_witness :
    cnt "R1B" (builtState c2rows).basicProfile =
      cnt "R1B" (tierIds "basic" (builtState c2rows).groups) :=
  (claim_C2_amended c2rows (builtState c2rows) "R1B" rfl).1

/-- A row matching none of the three structural patterns: no category cell,
but a control cell present. -/
def c3row : Row :=
  { category := none, control := some "X", requirement := none, title := none,
    description := none, basic := none, substantial := none, high := none }

/-- C3 counterexample: a sequence containing a row that matches none of the
three structural patterns is processed to completion — the builder returns a
state, not an error, so no structural error is raised and the row is
silently skipped. -/
theorem claim_C3_counterexample :
    buildRows [c3row] =
      .ok { groups := [], basicProfile := [], substantialProfile := [], highProfile := [],
            lastCat := none, lastCtrl := some "X", curControl := none } := rfl

/-- C3 (amended): a row matching none of the three structural patterns is
silently skipped: the step succeeds, and only the two look-back cells
change — catalog groups, the three tier lists and the current control are
untouched.  No error is raised for such rows. -/
theorem claim_C3_amended (s : BuildState) (row : Row)
    (h : row.category = none ∨ (row.control = none ∧ row.requirement.isSome = true)) :
    step s row = .ok (updateLookback row s) ∧
    (updateLookback row s).groups = s.groups ∧
    (updateLookback row s).basicProfile = s.basicProfile ∧
    (updateLookback row s).substantialProfile = s.substantialProfile ∧
    (updateLookback row s).highProfile = s.highProfile ∧
    (updateLookback row s).curControl = s.curControl :=
  ⟨step_unmatched s row h, rfl, rfl, rfl, rfl, rfl⟩

/-- Witness for the amended C3 on a concrete malformed row. -/
theorem claim_C3_witness :
    step initState c3row = .ok (updateLookback c3row initState) :=
  (claim_C3_amended initState c3row (Or.inl rfl)).1

/-- The shared profile object as first constructed by `run`. -/
def profile0 : Profile :=
  { uuid := catalogUuid, importHref := "EUCS_controls_version_1.0_catalog.json",
    include_controls := none }

/-- C4 counterexample: the three `write_profile` calls mutate one shared
in-memory Profile object.  After the Basic write its selector is
`some ["R1B"]`; after the subsequent Substantial write the same object's
selector is `some ["R1S"]` — producing the Substantial output does alter the
shared in-memory selector state, refuting the claim that selector
construction does not mutate profile state shared across the calls. -/
theorem claim_C4_counterexample :
    (write_profile (write_profile profile0 ["R1B"]).1 ["R1S"]).1.include_controls =
      some ["R1S"] ∧
    (write_profile profile0 ["R1B"]).1.include_controls = some ["R1B"] ∧
    (some ["R1S"] : Option (List String)) ≠ some ["R1B"] :=
  ⟨rfl, rfl, by decide⟩

/-- C4 (amended): each written profile document is independent of the
mutations previous calls left on the shared profile object (the selector is
fully overwritten before serializing), so the Basic document already written
is never altered and each document's selector is exactly its own tier list —
but each call does set the shared object's selector to its own list. -/
theorem claim_C4_amended (p : Profile) (l0 l : List String) :
    (write_profile (write_profile p l0).1 l).2 = (write_profile p l).2 ∧
    (write_profile p l).2.include_controls = l ∧
    (write_profile p l).1.include_controls = some l :=
  ⟨rfl, rfl, rfl⟩

/-- The three-row scenario of C5. -/
def c5rows : List Row :=
  [mkCatRow "C1" "Cat One", mkCtrlRow "C1" "C1.CTRL" "Do Thing",
   mkReqRow "C1" "C1.CTRL" "R1B" (some "desc") (some "x") (some "x") none]

/-- The state the builder produces on `c5rows`: one category, one control
under it with exactly the two Requirement parts `R1B` (basic) and `R1S`
(substantial), and the identifier lists basic = [R1B], substantial = [R1S],
high = []. -/
def c5state : BuildState :=
  { groups := [{ groupId := "eucs-C1", title := some "Cat One", labelVal := "C1.",
                 controls := [{ ctrlId := "eucs-C1.Do", title := "Do Thing", labelVal := "L.",
                                objId := "eucs-C1.Do_obj", objProse := none,
                                reqHeadId := "eucs-C1.Do_req",
                                reqParts := [{ severity := "basic", identifier := "R1B",
                                               partId := "eucs-C1.Do_req.1B",
                                               prose := "R1B - desc" },
                                             { severity := "substantial", identifier := "R1S",
                                               partId := "eucs-C1.Do_req.1S",
                                               prose := "R1S - desc" }] }] }],
    basicProfile := ["R1B"], substantialProfile := ["R1S"], highProfile := [],
    lastCat := some "C1", lastCtrl := some "C1.CTRL",
    curControl := some { gi := 0, ci := 0, title := "Do Thing" } }

/-- C5: on the category row, control row and basic+substantial requirement
row of the end-to-end scenario, the builder produces exactly one category,
one control with exactly the two Requirement parts `R1B` (basic) and `R1S`
(substantial), and the lists basic = [R1B], substantial = [R1S], high = []. -/
theorem claim_C5 : buildRows c5rows = .ok c5state := rfl

/-- A workbook with two sheets whose names contain "controls". -/
def c6sheets : List String := ["controls one", "controls two"]

/-- C6 counterexample: the first sheet whose name contains "controls" is
"controls one", but the run reads "controls two" — the loop keeps
re-assigning on every match, so the LAST matching sheet wins, not the
first. -/
theorem claim_C6_counterexample :
    List.find? matchesControls c6sheets = some "controls one" ∧
    selectSheetRun c6sheets = .ok "controls two" := ⟨rfl, rfl⟩

/-- C6 (amended): the sheet selected for reading is the LAST sheet in
workbook order whose name contains "controls" (case-insensitively), i.e. the
first match of the reversed sheet list; when no sheet matches, the run stops
with an error (the unassigned `sheet_name` raises NameError). -/
theorem claim_C6_amended (sheet_names : List String) :
    selectSheetRun sheet_names =
      match sheet_names.reverse.find? matchesControls with
      | some name => .ok name
      | none => .error "NameError" := by
  unfold selectSheetRun
  rw [selectSheet_eq]
  cases sheet_names.reverse.find? matchesControls with
  | none => rfl
  | some name => rfl

/-- Rows whose requirement row has the basic flag set but a blank (NaN)
description. -/
def c7rows : List Row :=
  [mkCatRow "C1" "Cat One", mkCtrlRow "C1" "C1.CTRL" "Do Thing",
   mkReqRow "C1" "C1.CTRL" "R1B" none (some "x") none none]

/-- C7 counterexample: a requirement row with a tier flag set and a blank
description does NOT yield a Requirement with empty prose — the prose
concatenation raises TypeError and the whole run aborts, so nothing is
created at all. -/
theorem claim_C7_counterexample : buildRows c7rows = .error "TypeError" := rfl

/-- C7 (amended): for a requirement row with at least one tier flag set, a
truly blank (NaN) description aborts the step with an error; only when the
description cell is present — even as the empty string — is the Requirement
part created for each set tier and the identifier appended to that tier's
list, preserving list/tree consistency. -/
theorem claim_C7_amended (s : BuildState) (row : Row) (cat ctrl req : String) (cc : CurControl)
    (hc : row.category = some cat) (hk : row.control = some ctrl)
    (hr : row.requirement = some req)
    (hcc : s.curControl = some cc) (hv : validAtB s.groups cc.gi cc.ci = true)
    (hflag : row.basic.isSome = true ∨ row.substantial.isSome = true ∨
      row.high.isSome = true) :
    (row.description = none → isErr (step s row) = true) ∧
    (∀ d s', row.description = some d → step s row = .ok s' →
      (row.basic.isSome = true →
        s'.basicProfile = s.basicProfile ++ [req] ∧
        partsTierIds "basic" (reqPartsAt s'.groups cc.gi cc.ci) =
          partsTierIds "basic" (reqPartsAt s.groups cc.gi cc.ci) ++ [req]) ∧
      (row.substantial.isSome = true →
        s'.substantialProfile = s.substantialProfile ++ [substantialKey req] ∧
        partsTierIds "substantial" (reqPartsAt s'.groups cc.gi cc.ci) =
          partsTierIds "substantial" (reqPartsAt s.groups cc.gi cc.ci) ++
            [substantialKey req]) ∧
      (row.high.isSome = true →
        s'.highProfile = s.highProfile ++ [highKey req] ∧
        partsTierIds "high" (reqPartsAt s'.groups cc.gi cc.ci) =
          partsTierIds "high" (reqPartsAt s.groups cc.gi cc.ci) ++ [highKey req])) := by
  constructor
  · intro hdn
    cases hstep : step s row with
    | error e => rfl
    | ok s' =>
      obtain ⟨_, d, hd⟩ := step_req_ok_inv2 s row cat ctrl req s' hc hk hr hstep hflag
      rw [hdn] at hd
      exact absurd hd (by simp)
  · intro d s' hd hok
    obtain ⟨hbeq, hseq, hheq, hpb, hps, hph⟩ :=
      step_req_spec2 s row cat ctrl req s' cc hc hk hr hcc hv hok
    refine ⟨?_, ?_, ?_⟩
    · intro hf
      simp only [hf, if_true] at hbeq hpb
      exact ⟨hbeq, hpb⟩
    · intro hf
      simp only [hf, if_true] at hseq hps
      exact ⟨hseq, hps⟩
    · intro hf
      simp only [hf, if_true] at hheq hph
      exact ⟨hheq, hph⟩

/-- Witness for the amended C7: an empty-string (present but empty)
description still creates the basic Requirement and appends `R1B`. -/
theorem claim_C7_witness :
    (builtState (preRows ++ [mkReqRow "C1" "C1.CTRL" "R1B" (some "") (some "x") none none])).basicProfile =
      (builtState preRows).basicProfile ++ ["R1B"] :=
  (((claim_C7_amended (builtState preRows)
      (mkReqRow "C1" "C1.CTRL" "R1B" (some "") (some "x") none none)
      "C1" "C1.CTRL" "R1B" { gi := 0, ci := 0, title := "Do Thing" }
      rfl rfl rfl rfl rfl (Or.inl rfl)).2 ""
      (builtState (preRows ++ [mkReqRow "C1" "C1.CTRL" "R1B" (some "") (some "x") none none]))
      rfl rfl).1 rfl).1

/-- A requirement-complete row with no tier flags set. -/
def c8crow : Row := mkReqRow "C1" "K" "R1B" (some "d") none none none

/-- C8 counterexample: a requirement-complete row occurring before any
control row does NOT abort the run when all its tier flags are blank — the
builder completes (and the run then writes its outputs), refuting the claim
for every such sequence. -/
theorem claim_C8_counterexample :
    buildRows [c8crow] =
      .ok { groups := [], basicProfile := [], substantialProfile := [], highProfile := [],
            lastCat := some "C1", lastCtrl := some "K", curControl := none } := rfl

/-- C8 (amended): a requirement-complete row with at least one tier flag set
that is processed while no current control is established makes the step
fail (the unbound current-control state raises), and any full run whose row
sequence reaches this situation returns an error — since the catalog is only
written after a completed loop, no catalog output is produced on such a
failure. -/
theorem claim_C8_amended (s : BuildState) (row : Row) (cat ctrl req : String)
    (hc : row.category = some cat) (hk : row.control = some ctrl)
    (hr : row.requirement = some req)
    (hcc : s.curControl = none)
    (hflag : row.basic.isSome = true ∨ row.substantial.isSome = true ∨
      row.high.isSome = true) :
    isErr (step s row) = true ∧
    (∀ version pre rest, runSteps initState pre = .ok s →
      isErr (runRows version (pre ++ row :: rest)) = true) := by
  have herr : isErr (step s row) = true := by
    cases hstep : step s row with
    | error e => rfl
    | ok s' =>
      obtain ⟨⟨cc, hccs⟩, _⟩ := step_req_ok_inv2 s row cat ctrl req s' hc hk hr hstep hflag
      rw [hcc] at hccs
      exact absurd hccs (by simp)
  refine ⟨herr, ?_⟩
  intro version pre rest hpre
  have hberr : isErr (buildRows (pre ++ row :: rest)) = true := by
    unfold buildRows
    rw [runSteps_append, hpre]
    show isErr (runSteps s (row :: rest)) = true
    cases hstep : step s row with
    | error e => simp [runSteps, hstep, isErr]
    | ok s' =>
      rw [hstep] at herr
      simp [isErr] at herr
  unfold runRows
  cases hbr : buildRows (pre ++ row :: rest) with
  | error e => rfl
  | ok st =>
    rw [hbr] at hberr
    simp [isErr] at hberr

/-- Witness for the amended C8: a basic-flagged requirement row as the very
first row makes the whole run fail, so no output is produced. -/
theorem claim_C8_witness :
    isErr (runRows "1.0" [mkReqRow "C1" "K" "R1B" (some "d") (some "x") none none]) = true :=
  (claim_C8_amended initState (mkReqRow "C1" "K" "R1B" (some "d") (some "x") none none)
    "C1" "K" "R1B" rfl rfl rfl rfl (Or.inl rfl)).2 "1.0" [] [] rfl

/-- C9: Category and Control entities are created at most once per run of
consecutive rows with an unchanged id.  If a category-only row is followed
by another category-only row with the same category id — the titles and all
other cells may differ — or a control-only row is followed by another
control-only row with the same control id — even under a different category
id — then processing the second row succeeds, only updates the look-back
cells, and leaves the catalog groups, the three tier lists and the current
control untouched: no additional Category or Control entity is created
(idempotent grouping). -/
theorem claim_C9 (s s' : BuildState) (r1 r2 : Row)
    (hpat :
      (r1.control = none ∧ r2.control = none ∧ r1.requirement = none ∧
        r2.requirement = none ∧ r1.category = r2.category ∧ r2.category.isSome = true) ∨
      (r1.requirement = none ∧ r2.requirement = none ∧ r1.control = r2.control ∧
        r2.control.isSome = true ∧ r1.category.isSome = true ∧ r2.category.isSome = true))
    (h : step s r1 = .ok s') :
    step s' r2 = .ok (updateLookback r2 s') ∧
    (updateLookback r2 s').groups = s'.groups ∧
    (updateLookback r2 s').basicProfile = s'.basicProfile ∧
    (updateLookback r2 s').substantialProfile = s'.substantialProfile ∧
    (updateLookback r2 s').highProfile = s'.highProfile ∧
    (updateLookback r2 s').curControl = s'.curControl := by
  obtain ⟨hlc, hlk⟩ := step_lookback s r1 s' h
  refine ⟨?_, rfl, rfl, rfl, rfl, rfl⟩
  rcases hpat with ⟨h1c, h2c, h1r, h2r, hcateq, h2cs⟩ |
    ⟨h1r, h2r, hctleq, h2cs, h1cat, h2cat⟩
  · obtain ⟨c, hc2⟩ := Option.isSome_iff_exists.mp h2cs
    have hlast : s'.lastCat = some c := by rw [hlc, hcateq, hc2]
    obtain ⟨oc2, octl2, oreq2, ot2, od2, ob2, osub2, oh2⟩ := r2
    have e1 : octl2 = none := h2c
    have e2 : oreq2 = none := h2r
    have e3 : oc2 = some c := hc2
    subst e1
    subst e2
    subst e3
    simp only [step]
    rw [if_pos hlast]
  · obtain ⟨k, hk2⟩ := Option.isSome_iff_exists.mp h2cs
    obtain ⟨c2, hc2⟩ := Option.isSome_iff_exists.mp h2cat
    have hlast : s'.lastCtrl = some k := by rw [hlk, hctleq, hk2]
    obtain ⟨oc2, octl2, oreq2, ot2, od2, ob2, osub2, oh2⟩ := r2
    have e1 : octl2 = some k := hk2
    have e2 : oreq2 = none := h2r
    have e3 : oc2 = some c2 := hc2
    subst e1
    subst e2
    subst e3
    simp only [step]
    rw [if_pos hlast]

/-- Witness for C9: a repeated category id with a DIFFERENT title still
creates no second Category — the second row only refreshes the look-back
cells. -/
theorem claim_C9_witness :
    step (builtState [mkCatRow "C1" "Title A"]) (mkCatRow "C1" "Title B") =
      .ok (updateLookback (mkCatRow "C1" "Title B") (builtState [mkCatRow "C1" "Title A"])) :=
  (claim_C9 initState (builtState [mkCatRow "C1" "Title A"])
    (mkCatRow "C1" "Title A") (mkCatRow "C1" "Title B")
    (Or.inl ⟨rfl, rfl, rfl, rfl, rfl, rfl⟩) rfl).1

end EUCS
